import Mathlib

/-!
Shallow embedding of the HiveMind SDK client (TypeScript, viem-based).

The repository contains two copies of the same thin client:
  - `part_000` (src/client.ts): the main `HiveMind` class — referred to below
    as the `v0` variant;
  - `part_001` (abi.ts / types.ts / a standalone single-file client) — the
    embedded client there is referred to as the `v1` variant.

The client is a mechanical request/response mapper over an external chain RPC
endpoint and two external contracts (the HiveMind ledger and the USDC token).
We embed it as pure functions over an `Rpc` oracle record that supplies the
responses the chain would give (allowance reads, assigned transaction hashes,
receipt block numbers, the post-creation project count, token balances), and
each write operation additionally returns the interaction trace (`List Call`)
it performs: which reads it issues, which transactions it submits with which
arguments, and which receipts it awaits, in order.

Machine integers: all on-chain quantities are unbounded non-negative integers
(uint256 never overflows at the magnitudes involved); TypeScript `number`
results of `Number(...) - 1` are modelled as `Int` where the subtraction could
go below zero.
-/

namespace HiveMindSDK

/-- USDC uses six decimal places (`constants.ts`: `USDC_DECIMALS = 6`). -/
def USDC_DECIMALS : Nat := 6

/-- Ledger contract address on the default network
(`CONTRACTS.base.hivemind` in `constants.ts`, and `HIVEMIND_ADDRESS` in the
standalone v1 client — the two string literals coincide). -/
def HIVEMIND_ADDRESS : String := "0xA1021d8287Da2cdFAfFab57CDb150088179e5f5B"

/-- USDC token address on the default network
(`CONTRACTS.base.usdc` in `constants.ts`, and `USDC_ADDRESS` in the v1
client). -/
def USDC_ADDRESS : String := "0x833589fCD6eDb6E08f4c7C32D4f71b54bdA02913"

/-- viem `parseUnits(x.toString(), 6)` at the exact value level: a decimal
value with at most `USDC_DECIMALS` fractional digits is scaled by `10^6` into
a smallest-unit integer.  For such values `q * 10^6` is an integer (its
rational denominator is `1`) and `(q * 10^6).num` is exactly that integer. -/
def toSmallestUnit (q : Rat) : Int := (q * (10 : Rat) ^ USDC_DECIMALS).num

/-- viem `formatUnits(n, 6)` followed by a numeric parse, at the exact value
level: the smallest-unit integer divided by `10^6`. -/
def toDecimal (n : Int) : Rat := (n : Rat) / (10 : Rat) ^ USDC_DECIMALS

/-- The six-field tuple returned by the contract's `agents(address)` getter
(see the `agents` ABI entry: wallet, nodeId, creditsContributed,
computeScore, joinedAt, active).  `joinedAt` is a unix timestamp in
seconds; an unregistered address yields the all-default tuple. -/
structure AgentTuple where
  wallet : String
  nodeId : String
  creditsContributed : Nat
  computeScore : Nat
  joinedAt : Nat
  active : Bool
deriving DecidableEq, Repr

/-- The decoded `Agent` record both clients build from the raw tuple.
`joinedAtMs` models `new Date(Number(result[4]) * 1000)` by its millisecond
value. -/
structure Agent where
  wallet : String
  nodeId : String
  creditsContributed : Nat
  computeScore : Nat
  joinedAtMs : Nat
  active : Bool
deriving DecidableEq, Repr

/-- The field-by-field decoding shared by both `getAgent` variants. -/
def decodeAgent (t : AgentTuple) : Agent :=
  ⟨t.wallet, t.nodeId, t.creditsContributed, t.computeScore,
   t.joinedAt * 1000, t.active⟩

/-- `getAgent` of the v0 client (part_000 lines 104-123): returns `null`
exactly when `result[4] === 0n`, i.e. the join-timestamp sentinel. -/
def getAgent_v0 (t : AgentTuple) : Option Agent :=
  if t.joinedAt = 0 then none else some (decodeAgent t)

/-- `getAgent` of the v1 client (part_001 lines 376-394): returns `null`
exactly when `!result[5]`, i.e. the active-flag sentinel. -/
def getAgent_v1 (t : AgentTuple) : Option Agent :=
  if t.active then some (decodeAgent t) else none

/-- The six-field tuple returned by the contract's `projects(uint256)`
getter: name, repoUrl, creator, totalFunding, createdAt, status (a uint8). -/
structure ProjectTuple where
  name : String
  repoUrl : String
  creator : String
  totalFunding : Nat
  createdAt : Nat
  status : Nat
deriving DecidableEq, Repr

/-- The project record built by the v0 `getProject` (part_000 lines
128-154).  The v0 client keeps the numeric status (`project[5] as
ProjectStatus`, an unchecked cast of the uint8: Active = 0, Completed = 1,
Cancelled = 2). -/
structure Project0 where
  id : Nat
  name : String
  repoUrl : String
  creator : String
  totalFunding : Nat
  createdAtMs : Nat
  status : Nat
  contributors : List String
deriving DecidableEq, Repr

/-- The project record built by the v1 `getProject` (part_001 lines
399-427), whose status is the string produced by indexing `statusMap`;
an out-of-range uint8 indexes past the array and yields `undefined`,
modelled as `none`. -/
structure Project1 where
  id : Nat
  name : String
  repoUrl : String
  creator : String
  totalFunding : Nat
  createdAtMs : Nat
  status : Option String
  contributors : List String
deriving DecidableEq, Repr

/-- `const statusMap = ['Active', 'Completed', 'Cancelled'] as const` from
the v1 `getProject`. -/
def statusMap : List String := ["Active", "Completed", "Cancelled"]

/-- v0 `getProject`: merge of the `projects(id)` tuple and the
`getContributors(id)` array, both supplied by the chain, into one record.
The two reads are issued concurrently and joined; each is an independent
projection of chain state, so the merge is a pure function of the two
responses. -/
def getProject_v0 (projectId : Nat) (t : ProjectTuple)
    (contributors : List String) : Project0 :=
  ⟨projectId, t.name, t.repoUrl, t.creator, t.totalFunding,
   t.createdAt * 1000, t.status, contributors⟩

/-- v1 `getProject`: same merge, but the status byte indexes `statusMap`. -/
def getProject_v1 (projectId : Nat) (t : ProjectTuple)
    (contributors : List String) : Project1 :=
  ⟨projectId, t.name, t.repoUrl, t.creator, t.totalFunding,
   t.createdAt * 1000, statusMap.get? t.status, contributors⟩

/-- A transaction submitted through `walletClient.writeContract`, identified
by contract function name and arguments, exactly the write surface of the two
ABIs (`approve` on the USDC contract; the six ledger writes). -/
inductive Tx where
  | approve (spender : String) (amount : Nat)
  | joinHive (nodeId : String) (creditsToPool : Nat)
  | createProject (name repoUrl : String) (initialFunding : Nat)
  | fundProject (projectId amount : Nat)
  | recordContribution (projectId : Nat) (agent : String) (percentage : Nat)
  | completeProject (projectId : Nat)
  | claimRewards (projectId : Nat)
deriving DecidableEq, Repr

/-- One step of the client's interaction with the RPC endpoint, with the
response the endpoint gave.  A write operation's behaviour is its ordered
list of these calls. -/
inductive Call where
  | readAllowance (owner spender : String) (response : Nat)
  | submit (contract : String) (tx : Tx) (hash : Nat)
  | waitReceipt (hash blockNumber : Nat)
  | readProjectCount (response : Nat)
deriving DecidableEq, Repr

/-- Oracle for the external chain: the responses the RPC endpoint returns to
this client during one operation.  `txHash k` is the hash the wallet reports
for the k-th transaction submitted during the operation (0-based),
`receiptBlock h` the block number in the awaited receipt for hash `h`,
`projectCountAfter` the response to the `projectCount` read that
`createProject` issues after its transaction confirms, and `balanceOf` the
USDC `balanceOf` view.  `allowance` is the response to the
`allowance(self, hivemind)` read. -/
structure Rpc where
  selfAddr : String
  allowance : Nat
  balanceOf : String → Nat
  txHash : Nat → Nat
  receiptBlock : Nat → Nat
  projectCountAfter : Nat

/-- `parseUnits('1000000', USDC_DECIMALS)`: the fixed approval ceiling of
1,000,000 display units, i.e. `10^12` smallest units. -/
def approveAmount : Nat := 1000000 * 10 ^ USDC_DECIMALS

/-- Number of transactions submitted so far in a trace (used to index
`Rpc.txHash` for the next submission). -/
def txCount (t : List Call) : Nat :=
  t.countP fun c => match c with
    | Call.submit _ _ _ => true
    | _ => false

/-- `ensureApproval` of the v0 client (part_000 lines 215-234): read the
caller's current USDC allowance granted to the ledger contract; if it is
below the requested amount, submit one `approve` for the fixed ceiling and
await its receipt, otherwise do nothing further. -/
def ensureApproval (rpc : Rpc) (amount : Nat) : List Call :=
  let rd := Call.readAllowance rpc.selfAddr HIVEMIND_ADDRESS rpc.allowance
  if rpc.allowance < amount then
    let h := rpc.txHash 0
    [rd, Call.submit USDC_ADDRESS (Tx.approve HIVEMIND_ADDRESS approveAmount) h,
     Call.waitReceipt h (rpc.receiptBlock h)]
  else [rd]

/-- `approveUsdc` of the v1 client (part_001 lines 551-568): textually the
same read-then-maybe-approve logic as v0's `ensureApproval`. -/
def approveUsdc (rpc : Rpc) (amount : Nat) : List Call :=
  let rd := Call.readAllowance rpc.selfAddr HIVEMIND_ADDRESS rpc.allowance
  if rpc.allowance < amount then
    let h := rpc.txHash 0
    [rd, Call.submit USDC_ADDRESS (Tx.approve HIVEMIND_ADDRESS approveAmount) h,
     Call.waitReceipt h (rpc.receiptBlock h)]
  else [rd]

/-- Return shape of every v0 write: transaction hash plus the block number of
the confirmed receipt (`{ hash, blockNumber: receipt.blockNumber }`). -/
structure TxResult where
  hash : Nat
  blockNumber : Nat
deriving DecidableEq, Repr

/-- Return shape of v0 `createProject`: the inferred project id on top of the
transaction result.  The id is `Number(projectCount) - 1`, an `Int` since the
TypeScript subtraction is over numbers. -/
structure CreateResult0 where
  projectId : Int
  hash : Nat
  blockNumber : Nat
deriving DecidableEq, Repr

/-- Return shape of v1 `createProject`: `{ hash, projectId }` only. -/
structure CreateResult1 where
  hash : Nat
  projectId : Int
deriving DecidableEq, Repr

/-- Body of v0 `join` after the `parseUnits` conversion (part_000 lines
242-260): approve if pooling a positive amount, submit `joinHive`, await the
receipt, return hash and block number. -/
def joinUnits_v0 (rpc : Rpc) (nodeId : String) (amount : Nat) :
    List Call × TxResult :=
  let pre := if 0 < amount then ensureApproval rpc amount else []
  let h := rpc.txHash (txCount pre)
  (pre ++ [Call.submit HIVEMIND_ADDRESS (Tx.joinHive nodeId amount) h,
           Call.waitReceipt h (rpc.receiptBlock h)],
   ⟨h, rpc.receiptBlock h⟩)

/-- v0 `join`: converts the display-unit pool amount with `parseUnits` and
runs the unit-level body. -/
def join_v0 (rpc : Rpc) (nodeId : String) (creditsToPool : Rat) :
    List Call × TxResult :=
  joinUnits_v0 rpc nodeId (toSmallestUnit creditsToPool).toNat

/-- Body of v0 `createProject` after conversion (part_000 lines 268-291):
approve if funding positive, submit `createProject`, await the receipt, then
re-read `projectCount` and infer the new id as that count minus one. -/
def createProjectUnits_v0 (rpc : Rpc) (name repoUrl : String) (amount : Nat) :
    List Call × CreateResult0 :=
  let pre := if 0 < amount then ensureApproval rpc amount else []
  let h := rpc.txHash (txCount pre)
  (pre ++ [Call.submit HIVEMIND_ADDRESS (Tx.createProject name repoUrl amount) h,
           Call.waitReceipt h (rpc.receiptBlock h),
           Call.readProjectCount rpc.projectCountAfter],
   ⟨(rpc.projectCountAfter : Int) - 1, h, rpc.receiptBlock h⟩)

/-- v0 `createProject` on display units. -/
def createProject_v0 (rpc : Rpc) (name repoUrl : String) (funding : Rat) :
    List Call × CreateResult0 :=
  createProjectUnits_v0 rpc name repoUrl (toSmallestUnit funding).toNat

/-- Body of v0 `fundProject` after conversion (part_000 lines 296-311):
always runs `ensureApproval` (no zero-amount guard), submits `fundProject`,
awaits the receipt. -/
def fundProjectUnits_v0 (rpc : Rpc) (projectId amount : Nat) :
    List Call × TxResult :=
  let pre := ensureApproval rpc amount
  let h := rpc.txHash (txCount pre)
  (pre ++ [Call.submit HIVEMIND_ADDRESS (Tx.fundProject projectId amount) h,
           Call.waitReceipt h (rpc.receiptBlock h)],
   ⟨h, rpc.receiptBlock h⟩)

/-- v0 `fundProject` on display units. -/
def fundProject_v0 (rpc : Rpc) (projectId : Nat) (amount : Rat) :
    List Call × TxResult :=
  fundProjectUnits_v0 rpc projectId (toSmallestUnit amount).toNat

/-- v0 `recordContribution` (part_000 lines 320-336): submit and await; no
allowance step, no client-side range validation of the percentage. -/
def recordContribution_v0 (rpc : Rpc) (projectId : Nat) (agent : String)
    (percentage : Nat) : List Call × TxResult :=
  let h := rpc.txHash 0
  ([Call.submit HIVEMIND_ADDRESS
      (Tx.recordContribution projectId agent percentage) h,
    Call.waitReceipt h (rpc.receiptBlock h)],
   ⟨h, rpc.receiptBlock h⟩)

/-- v0 `completeProject` (part_000 lines 341-353). -/
def completeProject_v0 (rpc : Rpc) (projectId : Nat) : List Call × TxResult :=
  let h := rpc.txHash 0
  ([Call.submit HIVEMIND_ADDRESS (Tx.completeProject projectId) h,
    Call.waitReceipt h (rpc.receiptBlock h)],
   ⟨h, rpc.receiptBlock h⟩)

/-- v0 `claimRewards` (part_000 lines 358-370). -/
def claimRewards_v0 (rpc : Rpc) (projectId : Nat) : List Call × TxResult :=
  let h := rpc.txHash 0
  ([Call.submit HIVEMIND_ADDRESS (Tx.claimRewards projectId) h,
    Call.waitReceipt h (rpc.receiptBlock h)],
   ⟨h, rpc.receiptBlock h⟩)

/-- Body of v1 `join` after conversion (part_001 lines 444-460): same steps
as v0 but the resolved value is the transaction hash alone. -/
def joinUnits_v1 (rpc : Rpc) (nodeId : String) (amount : Nat) :
    List Call × Nat :=
  let pre := if 0 < amount then approveUsdc rpc amount else []
  let h := rpc.txHash (txCount pre)
  (pre ++ [Call.submit HIVEMIND_ADDRESS (Tx.joinHive nodeId amount) h,
           Call.waitReceipt h (rpc.receiptBlock h)],
   h)

/-- v1 `join` on display units. -/
def join_v1 (rpc : Rpc) (nodeId : String) (creditsToPool : Rat) :
    List Call × Nat :=
  joinUnits_v1 rpc nodeId (toSmallestUnit creditsToPool).toNat

/-- Body of v1 `createProject` (part_001 lines 465-486): always calls
`approveUsdc` (no zero-funding guard), submits, awaits, re-reads
`projectCount`, returns `{ hash, projectId: Number(count) - 1 }`. -/
def createProjectUnits_v1 (rpc : Rpc) (name repoUrl : String) (amount : Nat) :
    List Call × CreateResult1 :=
  let pre := approveUsdc rpc amount
  let h := rpc.txHash (txCount pre)
  (pre ++ [Call.submit HIVEMIND_ADDRESS (Tx.createProject name repoUrl amount) h,
           Call.waitReceipt h (rpc.receiptBlock h),
           Call.readProjectCount rpc.projectCountAfter],
   ⟨h, (rpc.projectCountAfter : Int) - 1⟩)

/-- v1 `createProject` on display units. -/
def createProject_v1 (rpc : Rpc) (name repoUrl : String) (funding : Rat) :
    List Call × CreateResult1 :=
  createProjectUnits_v1 rpc name repoUrl (toSmallestUnit funding).toNat

/-- Body of v1 `fundProject` (part_001 lines 491-504): always approves first;
resolves to the hash alone. -/
def fundProjectUnits_v1 (rpc : Rpc) (projectId amount : Nat) :
    List Call × Nat :=
  let pre := approveUsdc rpc amount
  let h := rpc.txHash (txCount pre)
  (pre ++ [Call.submit HIVEMIND_ADDRESS (Tx.fundProject projectId amount) h,
           Call.waitReceipt h (rpc.receiptBlock h)],
   h)

/-- v1 `fundProject` on display units. -/
def fundProject_v1 (rpc : Rpc) (projectId : Nat) (amount : Rat) :
    List Call × Nat :=
  fundProjectUnits_v1 rpc projectId (toSmallestUnit amount).toNat

/-- v1 `recordContribution` (part_001 lines 509-519). -/
def recordContribution_v1 (rpc : Rpc) (projectId : Nat) (agent : String)
    (percentage : Nat) : List Call × Nat :=
  let h := rpc.txHash 0
  ([Call.submit HIVEMIND_ADDRESS
      (Tx.recordContribution projectId agent percentage) h,
    Call.waitReceipt h (rpc.receiptBlock h)],
   h)

/-- v1 `completeProject` (part_001 lines 524-534). -/
def completeProject_v1 (rpc : Rpc) (projectId : Nat) : List Call × Nat :=
  let h := rpc.txHash 0
  ([Call.submit HIVEMIND_ADDRESS (Tx.completeProject projectId) h,
    Call.waitReceipt h (rpc.receiptBlock h)],
   h)

/-- v1 `claimRewards` (part_001 lines 539-549). -/
def claimRewards_v1 (rpc : Rpc) (projectId : Nat) : List Call × Nat :=
  let h := rpc.txHash 0
  ([Call.submit HIVEMIND_ADDRESS (Tx.claimRewards projectId) h,
    Call.waitReceipt h (rpc.receiptBlock h)],
   h)

/-- v0 `getUsdcBalance` (part_000 lines 91-99): read `balanceOf` for the
given address (defaulting to the client's own address) and convert the
smallest-unit integer with `Number(formatUnits(balance, USDC_DECIMALS))`. -/
def getUsdcBalance_v0 (rpc : Rpc) (address : Option String) : Rat :=
  toDecimal (rpc.balanceOf (address.getD rpc.selfAddr))

/-- v1 `getUsdcBalance` (part_001 lines 432-439): read `balanceOf` for the
given address (defaulting to own address) and return the raw bigint. -/
def getUsdcBalance_v1 (rpc : Rpc) (address : Option String) : Nat :=
  rpc.balanceOf (address.getD rpc.selfAddr)

/-- Post-state allowance after `ensureApproval` runs.  The ERC-20 `approve`
of the USDC token sets `allowance(owner, spender)` to the approved value, so
when the client submits `approve(hivemind, approveAmount)` the allowance
becomes exactly `approveAmount`; on the no-approve branch it is unchanged.
This models the external token contract's documented approve semantics; the
branch condition and the approved value are the client's own
(`ensureApproval`). -/
def ensureApprovalPost (rpc : Rpc) (amount : Nat) : Nat :=
  if rpc.allowance < amount then approveAmount else rpc.allowance

/-- The amounts of the `approve` transactions submitted in a trace, in
order. -/
def approveSubs (t : List Call) : List Nat :=
  t.filterMap fun c => match c with
    | Call.submit _ (Tx.approve _ n) _ => some n
    | _ => none

/-- The allowance sub-protocol contract for one funding-bearing write with
requested amount `a` and primary transaction `primary`: the trace opens with
the allowance read; if the current allowance covers `a` no approve is
submitted anywhere in the trace; if not, exactly one approve is submitted,
for the fixed ceiling, and its receipt is awaited before the primary
transaction is submitted (the first four calls are read, approve-submit,
approve-wait, primary-submit, in that order). -/
def allowanceProtocolOk (rpc : Rpc) (a : Nat) (primary : Tx)
    (t : List Call) : Prop :=
  t.head? = some (Call.readAllowance rpc.selfAddr HIVEMIND_ADDRESS rpc.allowance) ∧
  (a ≤ rpc.allowance → approveSubs t = []) ∧
  (rpc.allowance < a →
    approveSubs t = [approveAmount] ∧
    t.take 4 =
      [Call.readAllowance rpc.selfAddr HIVEMIND_ADDRESS rpc.allowance,
       Call.submit USDC_ADDRESS (Tx.approve HIVEMIND_ADDRESS approveAmount)
         (rpc.txHash 0),
       Call.waitReceipt (rpc.txHash 0) (rpc.receiptBlock (rpc.txHash 0)),
       Call.submit HIVEMIND_ADDRESS primary (rpc.txHash 1)])

/-- Whether a transaction is a token `approve`. -/
def isApprove : Tx → Bool
  | Tx.approve _ _ => true
  | _ => false

/-- Hex-digit test for one character of private-key material. -/
def isHexChar (c : Char) : Bool :=
  (('0' ≤ c && c ≤ '9') || ('a' ≤ c && c ≤ 'f')) || ('A' ≤ c && c ≤ 'F')

/-- `privateKey.startsWith('0x')` on the character-list model of the
TypeScript string. -/
def startsWith0x (l : List Char) : Bool :=
  match l with
  | c0 :: c1 :: _ => c0 == '0' && c1 == 'x'
  | _ => false

/-- Key normalization from the v0 constructor (part_000 lines 50-55):
`config.privateKey.startsWith('0x') ? pk : '0x' + pk`. -/
def normalizeKey (pk : List Char) : List Char :=
  if startsWith0x pk then pk else '0' :: 'x' :: pk

/-- Whether a write blocked for the receipt of hash `h` (the trace contains
the awaited receipt for it) and reported `b` as the confirmation block
number. -/
def confirmsAndReturns (rpc : Rpc) (t : List Call) (h b : Nat) : Prop :=
  Call.waitReceipt h (rpc.receiptBlock h) ∈ t ∧ b = rpc.receiptBlock h

/-- Concrete chain oracle used to instantiate theorems with hypotheses:
allowance 0, every balance 2,000,000 smallest units, the k-th submitted
transaction gets hash `100 + k`, a receipt for hash `h` lands in block
`h + 7`, and the post-creation project count is 4. -/
def rpcW : Rpc := ⟨"0xSelfAddr", 0, fun _ => 2000000, fun k => 100 + k,
  fun hsh => hsh + 7, 4⟩

/-- Chain oracle for the block-number counterexample: receipts land in
block 7. -/
def rpcA : Rpc := ⟨"0xSelfAddr", 0, fun _ => 0, fun k => 100 + k,
  fun _ => 7, 1⟩

/-- Same oracle as `rpcA` except that receipts land in block 8. -/
def rpcB : Rpc := ⟨"0xSelfAddr", 0, fun _ => 0, fun k => 100 + k,
  fun _ => 8, 1⟩

/-- An agent tuple that is registered by the join-timestamp rule
(`joinedAt = 5 ≠ 0`) but inactive. -/
def tupRegInactive : AgentTuple := ⟨"0xW", "node-1", 0, 0, 5, false⟩

lemma approveUsdc_eq_ensureApproval : approveUsdc = ensureApproval := rfl

lemma ensureApproval_of_lt {rpc : Rpc} {a : Nat} (h : rpc.allowance < a) :
    ensureApproval rpc a =
      [Call.readAllowance rpc.selfAddr HIVEMIND_ADDRESS rpc.allowance,
       Call.submit USDC_ADDRESS (Tx.approve HIVEMIND_ADDRESS approveAmount)
         (rpc.txHash 0),
       Call.waitReceipt (rpc.txHash 0) (rpc.receiptBlock (rpc.txHash 0))] := by
  simp [ensureApproval, h]

lemma ensureApproval_of_ge {rpc : Rpc} {a : Nat} (h : ¬rpc.allowance < a) :
    ensureApproval rpc a =
      [Call.readAllowance rpc.selfAddr HIVEMIND_ADDRESS rpc.allowance] := by
  simp [ensureApproval, h]

lemma approveSubs_append (l1 l2 : List Call) :
    approveSubs (l1 ++ l2) = approveSubs l1 ++ approveSubs l2 := by
  simp [approveSubs, List.filterMap_append]

lemma approveSubs_submit_cons (c : String) (p : Tx) (hh : Nat) (t : List Call)
    (hp : isApprove p = false) :
    approveSubs (Call.submit c p hh :: t) = approveSubs t := by
  cases p <;> simp_all [approveSubs, isApprove, List.filterMap_cons]

/-- Any write of the shape `ensureApproval`-then-primary (with an
approve-free tail after the primary submission) satisfies the allowance
sub-protocol contract. -/
lemma allowanceProtocol_master (rpc : Rpc) (a : Nat) (primary : Tx)
    (tail : List Call) (htail : approveSubs tail = [])
    (hp : isApprove primary = false) :
    allowanceProtocolOk rpc a primary
      (ensureApproval rpc a ++
        Call.submit HIVEMIND_ADDRESS primary
          (rpc.txHash (txCount (ensureApproval rpc a))) :: tail) := by
  by_cases h : rpc.allowance < a
  · rw [ensureApproval_of_lt h]
    refine ⟨by simp, fun hle => absurd h (Nat.not_lt.2 hle), fun _ => ⟨?_, ?_⟩⟩
    · rw [approveSubs_append, approveSubs_submit_cons _ _ _ _ hp, htail]
      simp [approveSubs, List.filterMap_cons]
    · simp [txCount, List.countP_cons, List.take]
  · rw [ensureApproval_of_ge h]
    refine ⟨by simp, fun _ => ?_, fun hlt => absurd hlt h⟩
    rw [approveSubs_append, approveSubs_submit_cons _ _ _ _ hp, htail]
    simp [approveSubs, List.filterMap_cons]

/-- C1: for every funding-bearing write (join with a positive pool amount,
createProject, fundProject, in both client variants), the allowance
sub-protocol first reads the caller's current allowance granted to the
ledger contract; if that allowance is at least the requested amount, no
approve transaction is submitted anywhere in the write's trace; if it is
below, exactly one approve transaction is submitted, for the fixed ceiling
`approveAmount` (1,000,000 display units = `10^12` smallest units), and its
confirmation is awaited before the primary transaction is submitted (see
`allowanceProtocolOk`: the first four calls are then read, approve-submit,
approve-wait, primary-submit, in order). -/
theorem fundingWrites_allowance_subprotocol
    (rpc : Rpc) (nodeId name repoUrl : String) (pid : Nat) (q : Rat)
    (a : Nat) (ha : (toSmallestUnit q).toNat = a) (hpos : 0 < a) :
    allowanceProtocolOk rpc a (Tx.joinHive nodeId a)
      (join_v0 rpc nodeId q).1 ∧
    allowanceProtocolOk rpc a (Tx.createProject name repoUrl a)
      (createProject_v0 rpc name repoUrl q).1 ∧
    allowanceProtocolOk rpc a (Tx.fundProject pid a)
      (fundProject_v0 rpc pid q).1 ∧
    allowanceProtocolOk rpc a (Tx.joinHive nodeId a)
      (join_v1 rpc nodeId q).1 ∧
    allowanceProtocolOk rpc a (Tx.createProject name repoUrl a)
      (createProject_v1 rpc name repoUrl q).1 ∧
    allowanceProtocolOk rpc a (Tx.fundProject pid a)
      (fundProject_v1 rpc pid q).1 := by
  subst ha
  refine ⟨?_, ?_, ?_, ?_, ?_, ?_⟩
  · simp only [join_v0, joinUnits_v0, if_pos hpos]
    exact allowanceProtocol_master _ _ _ _ rfl rfl
  · simp only [createProject_v0, createProjectUnits_v0, if_pos hpos]
    exact allowanceProtocol_master _ _ _ _ rfl rfl
  · simp only [fundProject_v0, fundProjectUnits_v0]
    exact allowanceProtocol_master _ _ _ _ rfl rfl
  · simp only [join_v1, joinUnits_v1, if_pos hpos, approveUsdc_eq_ensureApproval]
    exact allowanceProtocol_master _ _ _ _ rfl rfl
  · simp only [createProject_v1, createProjectUnits_v1,
      approveUsdc_eq_ensureApproval]
    exact allowanceProtocol_master _ _ _ _ rfl rfl
  · simp only [fundProject_v1, fundProjectUnits_v1,
      approveUsdc_eq_ensureApproval]
    exact allowanceProtocol_master _ _ _ _ rfl rfl

/-- Witness for C1: pooling 1 display unit (1,000,000 smallest units)
against an oracle whose current allowance is 0, the hypotheses hold and the
protocol contract is realized on the v0 `join` trace. -/
theorem fundingWrites_allowance_subprotocol_witness :
    (toSmallestUnit 1).toNat = 1000000 ∧ 0 < 1000000 ∧
    allowanceProtocolOk rpcW 1000000 (Tx.joinHive "node" 1000000)
      (join_v0 rpcW "node" 1).1 := by
  have h1 : (toSmallestUnit 1).toNat = 1000000 := by
    norm_num [toSmallestUnit, USDC_DECIMALS]
    rfl
  exact ⟨h1, by norm_num,
    (fundingWrites_allowance_subprotocol rpcW "node" "p" "r" 0 1 1000000 h1
      (by norm_num)).1⟩

/-- C2: when the post-confirmation re-read of `projectCount` returns
`N + 1` (count was `N` before the creation and no concurrent creator raced
in between), both `createProject` variants return the inferred id
`count - 1 = N`, and their traces end with the creation submission, the
awaited receipt, and only then the count re-read. -/
theorem createProject_id_inference (rpc : Rpc) (name repoUrl : String)
    (q : Rat) (N : Nat) (h : rpc.projectCountAfter = N + 1) :
    (createProject_v0 rpc name repoUrl q).2.projectId = (N : Int) ∧
    (createProject_v1 rpc name repoUrl q).2.projectId = (N : Int) ∧
    (∃ pre h0, (createProject_v0 rpc name repoUrl q).1 =
      pre ++ [Call.submit HIVEMIND_ADDRESS
                (Tx.createProject name repoUrl (toSmallestUnit q).toNat) h0,
              Call.waitReceipt h0 (rpc.receiptBlock h0),
              Call.readProjectCount (N + 1)]) ∧
    (∃ pre h0, (createProject_v1 rpc name repoUrl q).1 =
      pre ++ [Call.submit HIVEMIND_ADDRESS
                (Tx.createProject name repoUrl (toSmallestUnit q).toNat) h0,
              Call.waitReceipt h0 (rpc.receiptBlock h0),
              Call.readProjectCount (N + 1)]) := by
  refine ⟨?_, ?_, ?_, ?_⟩
  · simp [createProject_v0, createProjectUnits_v0, h]
  · simp [createProject_v1, createProjectUnits_v1, h]
  · simp only [createProject_v0, createProjectUnits_v0, h]
    exact ⟨_, _, rfl⟩
  · simp only [createProject_v1, createProjectUnits_v1, h]
    exact ⟨_, _, rfl⟩

/-- Witness for C2: with the count re-read returning 4, the inferred
project id is 3. -/
theorem createProject_id_inference_witness :
    rpcW.projectCountAfter = 3 + 1 ∧
    (createProject_v0 rpcW "p" "r" 1).2.projectId = (3 : Int) := by
  exact ⟨rfl, (createProject_id_inference rpcW "p" "r" 1 3 rfl).1⟩

/-- C5: for every non-negative decimal value with at most six fractional
digits (equivalently, scaling by `10^6` yields an integer), converting to a
smallest-unit integer and back to a decimal returns the same value. -/
theorem units_roundtrip (q : Rat) (_hq : 0 ≤ q)
    (hden : (q * (10 : Rat) ^ USDC_DECIMALS).den = 1) :
    toDecimal (toSmallestUnit q) = q := by
  unfold toDecimal toSmallestUnit
  have h : ((q * (10 : Rat) ^ USDC_DECIMALS).num : Rat) =
      q * (10 : Rat) ^ USDC_DECIMALS := by
    rw [Rat.den_eq_one_iff] at hden
    exact hden
  rw [h]
  field_simp

/-- Witness for C5: the value 1.5 (six-fractional-digit representable)
scales to 1,500,000 smallest units and converts back to 1.5. -/
theorem units_roundtrip_witness :
    0 ≤ (3 / 2 : Rat) ∧ ((3 / 2 : Rat) * (10 : Rat) ^ USDC_DECIMALS).den = 1 ∧
    toDecimal (toSmallestUnit (3 / 2)) = (3 / 2 : Rat) := by
  have hden : ((3 / 2 : Rat) * (10 : Rat) ^ USDC_DECIMALS).den = 1 := by
    norm_num [USDC_DECIMALS]
  exact ⟨by norm_num, hden, units_roundtrip (3 / 2) (by norm_num) hden⟩

/-- C10: after `ensureApproval(amount)` completes, the caller's allowance is
at least `min amount approveAmount`; whenever the pre-existing allowance is
below the requested amount, the single approve grants exactly the fixed
ceiling regardless of the amount, so for every amount above the ceiling the
post-state allowance remains below the requested amount and the primary
transaction (here `fundProject`, which never re-checks) is still
submitted. -/
theorem ensureApproval_ceiling_bound (rpc : Rpc) (amount pid : Nat) :
    min amount approveAmount ≤ ensureApprovalPost rpc amount ∧
    (rpc.allowance < amount →
      approveSubs (ensureApproval rpc amount) = [approveAmount]) ∧
    (approveAmount < amount → rpc.allowance < amount →
      ensureApprovalPost rpc amount < amount ∧
      ∃ h0, Call.submit HIVEMIND_ADDRESS (Tx.fundProject pid amount) h0 ∈
        (fundProjectUnits_v0 rpc pid amount).1) := by
  refine ⟨?_, ?_, ?_⟩
  · unfold ensureApprovalPost
    by_cases h : rpc.allowance < amount
    · simp [h]
    · simp only [if_neg h]
      exact le_trans (Nat.min_le_left _ _) (Nat.not_lt.1 h)
  · intro h
    rw [ensureApproval_of_lt h]
    simp [approveSubs, List.filterMap_cons]
  · intro hceil h
    refine ⟨by simp [ensureApprovalPost, h, hceil], ?_⟩
    refine ⟨rpc.txHash (txCount (ensureApproval rpc amount)), ?_⟩
    simp [fundProjectUnits_v0]

/-- Witness for C10: requesting one smallest unit above the ceiling with a
zero current allowance leaves the post-state allowance (the ceiling) below
the request, while the fundProject transaction is still submitted. -/
theorem ensureApproval_ceiling_bound_witness :
    approveAmount < approveAmount + 1 ∧ rpcW.allowance < approveAmount + 1 ∧
    (ensureApprovalPost rpcW (approveAmount + 1) < approveAmount + 1 ∧
      ∃ h0, Call.submit HIVEMIND_ADDRESS
          (Tx.fundProject 0 (approveAmount + 1)) h0 ∈
        (fundProjectUnits_v0 rpcW 0 (approveAmount + 1)).1) := by
  refine ⟨Nat.lt_succ_self _, ?_, ?_⟩
  · show (0 : Nat) < approveAmount + 1
    exact Nat.succ_pos _
  · exact (ensureApproval_ceiling_bound rpcW (approveAmount + 1) 0).2.2
      (Nat.lt_succ_self _) (Nat.succ_pos _)

/-- C3 counterexample: the claim quantifies over both `getAgent` variants
(its sources cite part_000 lines 104-123 and part_001 lines 376-394), but at
the concrete registered tuple `tupRegInactive` (nonzero `joinedAt`, inactive)
the active-flag variant returns the absent value instead of a structured
record, while the join-timestamp variant returns a record — so "for every
registered address it returns a structured record" fails for the v1
variant. -/
theorem getAgent_registered_inactive_cex :
    tupRegInactive.joinedAt ≠ 0 ∧
    getAgent_v1 tupRegInactive = none ∧
    getAgent_v0 tupRegInactive = some (decodeAgent tupRegInactive) := by
  refine ⟨by decide, ?_, ?_⟩
  · simp [getAgent_v1, tupRegInactive]
  · simp [getAgent_v0, tupRegInactive]

/-- C3 (amended): on the unregistered default tuple (zero `joinedAt`,
inactive) both variants return the explicit absent value, never a record
with zeroed fields; on a registered tuple (nonzero `joinedAt`) the
join-timestamp variant (part_000) returns the structured record, while the
active-flag variant (part_001) returns the structured record exactly when
the active flag is set. -/
theorem getAgent_existence_rules (t : AgentTuple) :
    (t.joinedAt = 0 → getAgent_v0 t = none) ∧
    (t.active = false → getAgent_v1 t = none) ∧
    (t.joinedAt ≠ 0 → getAgent_v0 t = some (decodeAgent t)) ∧
    (t.active = true → getAgent_v1 t = some (decodeAgent t)) := by
  refine ⟨fun h => ?_, fun h => ?_, fun h => ?_, fun h => ?_⟩ <;>
    simp [getAgent_v0, getAgent_v1, h]

/-- Witness for C3: the amended rules evaluated on the unregistered default
tuple and on a registered active tuple. -/
theorem getAgent_existence_rules_witness :
    getAgent_v0 ⟨"0x0", "", 0, 0, 0, false⟩ = none ∧
    getAgent_v1 ⟨"0x0", "", 0, 0, 0, false⟩ = none ∧
    getAgent_v0 ⟨"0xR", "n", 7, 0, 5, true⟩ =
      some (decodeAgent ⟨"0xR", "n", 7, 0, 5, true⟩) ∧
    getAgent_v1 ⟨"0xR", "n", 7, 0, 5, true⟩ =
      some (decodeAgent ⟨"0xR", "n", 7, 0, 5, true⟩) :=
  ⟨(getAgent_existence_rules ⟨"0x0", "", 0, 0, 0, false⟩).1 rfl,
   (getAgent_existence_rules ⟨"0x0", "", 0, 0, 0, false⟩).2.1 rfl,
   (getAgent_existence_rules ⟨"0xR", "n", 7, 0, 5, true⟩).2.2.1 (by decide),
   (getAgent_existence_rules ⟨"0xR", "n", 7, 0, 5, true⟩).2.2.2 rfl⟩

/-- C4: the two `getAgent` variants implement inconsistent existence rules:
they are not extensionally equal, and the disagreement is exhibited by an
agent tuple with nonzero `joinedAt` and a cleared active flag, on which the
join-timestamp-sentinel variant returns a populated record while the
active-flag-sentinel variant returns the absent value. -/
theorem getAgent_variants_disagree :
    getAgent_v0 ≠ getAgent_v1 ∧
    ∃ t : AgentTuple, t.joinedAt ≠ 0 ∧ t.active = false ∧
      getAgent_v0 t = some (decodeAgent t) ∧ getAgent_v1 t = none := by
  constructor
  · intro hEq
    have h := congrFun hEq ⟨"0xQ", "m", 0, 0, 5, false⟩
    simp [getAgent_v0, getAgent_v1] at h
  · exact ⟨⟨"0xQ", "m", 0, 0, 5, false⟩, by decide,
      rfl, by simp [getAgent_v0], by simp [getAgent_v1]⟩

/-- C6: for every existing project (on-chain status byte in range, as the
contract's three-valued enum guarantees), both `getProject` variants merge
the core tuple with the independently-queried contributor array into a
record whose id equals the argument, whose status is one of the three
enumerated values (Active/Completed/Cancelled: 0, 1, 2 numerically in v0,
the corresponding `statusMap` string in v1), and whose contributor list is
exactly — hence of equal length with — the queried array. -/
theorem getProject_merge (pid : Nat) (t : ProjectTuple) (cs : List String)
    (h : t.status < 3) :
    (getProject_v0 pid t cs).id = pid ∧
    (getProject_v1 pid t cs).id = pid ∧
    (getProject_v0 pid t cs).status ∈ [0, 1, 2] ∧
    (∃ s ∈ statusMap, (getProject_v1 pid t cs).status = some s) ∧
    (getProject_v0 pid t cs).contributors = cs ∧
    (getProject_v1 pid t cs).contributors = cs ∧
    (getProject_v0 pid t cs).contributors.length = cs.length := by
  have h3 : t.status = 0 ∨ t.status = 1 ∨ t.status = 2 := by omega
  refine ⟨rfl, rfl, ?_, ?_, rfl, rfl, rfl⟩
  · rcases h3 with h0 | h0 | h0 <;> simp [getProject_v0, h0]
  · rcases h3 with h0 | h0 | h0 <;>
      simp [getProject_v1, statusMap, h0]

/-- Witness for C6: a concrete in-range tuple (status byte 1, Completed)
with a two-element contributor array. -/
theorem getProject_merge_witness :
    (⟨"p", "r", "0xC", 5, 9, 1⟩ : ProjectTuple).status < 3 ∧
    ((getProject_v0 2 ⟨"p", "r", "0xC", 5, 9, 1⟩ ["0xA", "0xB"]).id = 2 ∧
     (getProject_v1 2 ⟨"p", "r", "0xC", 5, 9, 1⟩ ["0xA", "0xB"]).id = 2 ∧
     (getProject_v0 2 ⟨"p", "r", "0xC", 5, 9, 1⟩ ["0xA", "0xB"]).status ∈
       [0, 1, 2] ∧
     (∃ s ∈ statusMap,
       (getProject_v1 2 ⟨"p", "r", "0xC", 5, 9, 1⟩ ["0xA", "0xB"]).status =
         some s) ∧
     (getProject_v0 2 ⟨"p", "r", "0xC", 5, 9, 1⟩ ["0xA", "0xB"]).contributors =
       ["0xA", "0xB"] ∧
     (getProject_v1 2 ⟨"p", "r", "0xC", 5, 9, 1⟩ ["0xA", "0xB"]).contributors =
       ["0xA", "0xB"] ∧
     (getProject_v0 2 ⟨"p", "r", "0xC", 5, 9,
       1⟩ ["0xA", "0xB"]).contributors.length = (["0xA", "0xB"]).length) :=
  ⟨by decide, getProject_merge 2 ⟨"p", "r", "0xC", 5, 9, 1⟩ ["0xA", "0xB"]
    (by decide)⟩

/-- C7 counterexample: the claim says every write returns both the
transaction identifier and the confirmation block number, but the v1 writes
resolve to the bare hash.  Concretely, on two oracles that differ only in
the receipt block number (7 vs 8), v1 `join` returns identical values, so
its return value cannot carry the confirmation block number, whereas v0
`join` returns different `TxResult`s whose block numbers are the two
receipts'. -/
theorem v1_writes_lack_blockNumber_cex :
    (join_v1 rpcA "n" 0).2 = (join_v1 rpcB "n" 0).2 ∧
    rpcA.receiptBlock (join_v1 rpcA "n" 0).2 ≠
      rpcB.receiptBlock (join_v1 rpcB "n" 0).2 ∧
    (join_v0 rpcA "n" 0).2 ≠ (join_v0 rpcB "n" 0).2 ∧
    (join_v0 rpcA "n" 0).2.blockNumber = 7 ∧
    (join_v0 rpcB "n" 0).2.blockNumber = 8 := by
  have h0 : (toSmallestUnit 0).toNat = 0 := by
    norm_num [toSmallestUnit, USDC_DECIMALS]
  refine ⟨?_, ?_, ?_, ?_, ?_⟩ <;>
    simp [join_v0, join_v1, joinUnits_v0, joinUnits_v1, h0, rpcA, rpcB]

/-- C7 (amended): every write operation of the v0 client (join,
createProject, fundProject, recordContribution, completeProject,
claimRewards) blocks until the receipt is confirmed and returns both the
transaction hash and the confirmation block number; the corresponding v1
writes also block until the receipt is confirmed but return only the
transaction hash. -/
theorem writes_await_confirmation (rpc : Rpc)
    (nodeId name repoUrl agent : String) (pid pct : Nat) (q : Rat) :
    confirmsAndReturns rpc (join_v0 rpc nodeId q).1
      (join_v0 rpc nodeId q).2.hash (join_v0 rpc nodeId q).2.blockNumber ∧
    confirmsAndReturns rpc (createProject_v0 rpc name repoUrl q).1
      (createProject_v0 rpc name repoUrl q).2.hash
      (createProject_v0 rpc name repoUrl q).2.blockNumber ∧
    confirmsAndReturns rpc (fundProject_v0 rpc pid q).1
      (fundProject_v0 rpc pid q).2.hash
      (fundProject_v0 rpc pid q).2.blockNumber ∧
    confirmsAndReturns rpc (recordContribution_v0 rpc pid agent pct).1
      (recordContribution_v0 rpc pid agent pct).2.hash
      (recordContribution_v0 rpc pid agent pct).2.blockNumber ∧
    confirmsAndReturns rpc (completeProject_v0 rpc pid).1
      (completeProject_v0 rpc pid).2.hash
      (completeProject_v0 rpc pid).2.blockNumber ∧
    confirmsAndReturns rpc (claimRewards_v0 rpc pid).1
      (claimRewards_v0 rpc pid).2.hash
      (claimRewards_v0 rpc pid).2.blockNumber ∧
    Call.waitReceipt (join_v1 rpc nodeId q).2
      (rpc.receiptBlock (join_v1 rpc nodeId q).2) ∈ (join_v1 rpc nodeId q).1 ∧
    Call.waitReceipt (createProject_v1 rpc name repoUrl q).2.hash
      (rpc.receiptBlock (createProject_v1 rpc name repoUrl q).2.hash) ∈
      (createProject_v1 rpc name repoUrl q).1 ∧
    Call.waitReceipt (fundProject_v1 rpc pid q).2
      (rpc.receiptBlock (fundProject_v1 rpc pid q).2) ∈
      (fundProject_v1 rpc pid q).1 ∧
    Call.waitReceipt (recordContribution_v1 rpc pid agent pct).2
      (rpc.receiptBlock (recordContribution_v1 rpc pid agent pct).2) ∈
      (recordContribution_v1 rpc pid agent pct).1 ∧
    Call.waitReceipt (completeProject_v1 rpc pid).2
      (rpc.receiptBlock (completeProject_v1 rpc pid).2) ∈
      (completeProject_v1 rpc pid).1 ∧
    Call.waitReceipt (claimRewards_v1 rpc pid).2
      (rpc.receiptBlock (claimRewards_v1 rpc pid).2) ∈
      (claimRewards_v1 rpc pid).1 := by
  refine ⟨?_, ?_, ?_, ?_, ?_, ?_, ?_, ?_, ?_, ?_, ?_, ?_⟩
  · by_cases h0 : 0 < (toSmallestUnit q).toNat <;>
      simp [confirmsAndReturns, join_v0, joinUnits_v0, h0]
  · by_cases h0 : 0 < (toSmallestUnit q).toNat <;>
      simp [confirmsAndReturns, createProject_v0, createProjectUnits_v0, h0]
  · simp [confirmsAndReturns, fundProject_v0, fundProjectUnits_v0]
  · simp [confirmsAndReturns, recordContribution_v0]
  · simp [confirmsAndReturns, completeProject_v0]
  · simp [confirmsAndReturns, claimRewards_v0]
  · by_cases h0 : 0 < (toSmallestUnit q).toNat <;>
      simp [join_v1, joinUnits_v1, h0]
  · simp [createProject_v1, createProjectUnits_v1]
  · simp [fundProject_v1, fundProjectUnits_v1]
  · simp [recordContribution_v1]
  · simp [completeProject_v1]
  · simp [claimRewards_v1]

/-- C8: any 64-hex-character signing key without the `0x` prefix cannot
begin with `0x` (x is not a hex digit), so the constructor's normalization
maps the bare key and the prefixed key to the same canonical prefixed form,
and hence any key-to-address derivation yields the same wallet address for
both spellings. -/
theorem key_normalization (derive : List Char → String) (raw : List Char)
    (hlen : raw.length = 64) (hhex : ∀ c ∈ raw, isHexChar c = true) :
    normalizeKey raw = '0' :: 'x' :: raw ∧
    normalizeKey ('0' :: 'x' :: raw) = '0' :: 'x' :: raw ∧
    derive (normalizeKey raw) = derive (normalizeKey ('0' :: 'x' :: raw)) := by
  cases raw with
  | nil => simp at hlen
  | cons c0 r1 =>
    cases r1 with
    | nil => simp at hlen
    | cons c1 rest =>
      have hc1 : isHexChar c1 = true := hhex c1 (by simp)
      have hx : (c1 == 'x') = false := by
        by_cases hcx : c1 = 'x'
        · subst hcx
          exact absurd hc1 (by decide)
        · simp [hcx]
      have h1 : startsWith0x (c0 :: c1 :: rest) = false := by
        simp [startsWith0x, hx]
      have h2 : normalizeKey (c0 :: c1 :: rest) = '0' :: 'x' :: c0 :: c1 :: rest := by
        simp [normalizeKey, h1]
      have h3 : normalizeKey ('0' :: 'x' :: c0 :: c1 :: rest) =
          '0' :: 'x' :: c0 :: c1 :: rest := by
        simp [normalizeKey, startsWith0x]
      exact ⟨h2, h3, by rw [h2, h3]⟩

/-- Witness for C8: a concrete 64-hex-character key (all `a`s), with
`String.mk` standing in for the external key-to-address derivation. -/
theorem key_normalization_witness :
    (List.replicate 64 'a').length = 64 ∧
    normalizeKey (List.replicate 64 'a') = '0' :: 'x' :: List.replicate 64 'a' ∧
    String.mk (normalizeKey (List.replicate 64 'a')) =
      String.mk (normalizeKey ('0' :: 'x' :: List.replicate 64 'a')) := by
  have h := key_normalization String.mk (List.replicate 64 'a')
    (by decide) (by decide)
  exact ⟨by decide, h.1, h.2.2⟩

/-- C9 counterexample: the claim says `getUsdcBalance` returns the balance
converted to decimal by division by `10^6` in both variants, but the v1
variant returns the raw smallest-unit integer: on the oracle whose balance
is 2,000,000 smallest units, v0 returns 2 while v1 returns 2,000,000, which
differs from the converted value. -/
theorem getUsdcBalance_v1_raw_cex :
    getUsdcBalance_v0 rpcW none = 2 ∧
    getUsdcBalance_v1 rpcW none = 2000000 ∧
    (getUsdcBalance_v1 rpcW none : Rat) ≠
      toDecimal (rpcW.balanceOf rpcW.selfAddr) := by
  refine ⟨?_, rfl, ?_⟩
  · norm_num [getUsdcBalance_v0, toDecimal, rpcW, USDC_DECIMALS]
  · norm_num [getUsdcBalance_v1, toDecimal, rpcW, USDC_DECIMALS]

/-- C9 (amended): for every address (defaulting to the client's own), the
v0 `getUsdcBalance` returns the token balance converted from the
smallest-unit integer to decimal (division by `10^6`), while the v1 variant
returns the raw smallest-unit integer unconverted. -/
theorem getUsdcBalance_conversion (rpc : Rpc) (a : String) :
    getUsdcBalance_v0 rpc (some a) = toDecimal (rpc.balanceOf a) ∧
    (10 : Rat) ^ USDC_DECIMALS * getUsdcBalance_v0 rpc (some a) =
      (rpc.balanceOf a : Rat) ∧
    getUsdcBalance_v0 rpc none = getUsdcBalance_v0 rpc (some rpc.selfAddr) ∧
    getUsdcBalance_v1 rpc (some a) = rpc.balanceOf a ∧
    getUsdcBalance_v1 rpc none = getUsdcBalance_v1 rpc (some rpc.selfAddr) := by
  refine ⟨rfl, ?_, rfl, rfl, rfl⟩
  unfold getUsdcBalance_v0 toDecimal
  rw [Option.getD]
  field_simp

end HiveMindSDK
